import Mathlib

/-!
Shallow embedding of the concurrent quote-harvesting engine of the
Quotes-classification-app repository (src/base_scraper.py,
src/az_quote_scrapper.py, src/goodreads_scraper.py,
src/famous_quotes_scraper.py, src/python/base_scraper.py,
src/python/famous_quotes_scraper.py).

Python strings are modelled as Lean `String`s; where the code manipulates
them character-wise they are converted through `String.data` (a Lean
string literal is definitionally its character list).  Python exceptions
are modelled by `Except PyExn`; a Python function that may raise returns
`Except PyExn α`.  The network is modelled as an explicit sequence of
attempt outcomes per URL (`Nat → Attempt`), and BeautifulSoup parsing of
the bodies that actually occur in a run is modelled as an explicit
document-shape environment (`docOf : String → …Doc`) carrying the true
fact that `html.parser` applied to the empty string yields a soup with no
elements (`find` returns `None`, `find_all` returns `[]`).
-/

/-- Characters of a Python string. -/
abbrev Chars := List Char

/-- Boolean prefix test on character lists (used for `requests`' adapter
prefix matching and Python's `in` substring operator). -/
def listStarts : Chars → Chars → Bool
  | [], _ => true
  | _ :: _, [] => false
  | a :: as, b :: bs => if a = b then listStarts as bs else false

/-- Python's `sub in s` substring containment test. -/
def listHasSub (sub : Chars) : Chars → Bool
  | [] => listStarts sub []
  | c :: rest => listStarts sub (c :: rest) || listHasSub sub rest

/-- Leftmost index at which `sub` occurs in the list, Python `str.index`
without the raising behaviour (that is added at the call site). -/
def strIndexOfAux (sub : Chars) : Chars → Nat → Option Nat
  | [], i => if listStarts sub [] then some i else none
  | c :: rest, i =>
    if listStarts sub (c :: rest) then some i else strIndexOfAux sub rest (i + 1)

/-- Leftmost occurrence index of `sub` in `l`, or `none`. -/
def strIndexOf (l sub : Chars) : Option Nat := strIndexOfAux sub l 0

/-- Python `s.split(sep)` for a single-character separator: splits at every
occurrence, keeping empty pieces; `split` of the empty string is `[[]]`. -/
def pySplitChar (sep : Char) : Chars → List Chars
  | [] => [[]]
  | c :: cs =>
    let r := pySplitChar sep cs
    if c = sep then [] :: r
    else
      match r with
      | [] => [[c]]
      | p :: ps => (c :: p) :: ps

/-- Python `sep.join(parts)` for a single-character separator. -/
def pyJoinChar (sep : Char) : List Chars → Chars
  | [] => []
  | [p] => p
  | p :: ps => p ++ sep :: pyJoinChar sep ps

/-- Digit tail of a Python integer literal: digits possibly separated by
single underscores, as accepted by `int()`. -/
def pyDigitsAux : Nat → Chars → Option Nat
  | acc, [] => some acc
  | acc, '_' :: c :: rest =>
    if c.isDigit then pyDigitsAux (acc * 10 + (c.toNat - 48)) rest else none
  | _, ['_'] => none
  | acc, c :: rest =>
    if c.isDigit then pyDigitsAux (acc * 10 + (c.toNat - 48)) rest else none

/-- Nonempty digit sequence (with Python's underscore grouping). -/
def pyDigitsStart : Chars → Option Nat
  | [] => none
  | c :: rest => if c.isDigit then pyDigitsAux (c.toNat - 48) rest else none

/-- Strip leading and trailing whitespace, as `int()` does before parsing. -/
def pyStripWs (l : Chars) : Chars :=
  ((l.dropWhile Char.isWhitespace).reverse.dropWhile Char.isWhitespace).reverse

/-- Python `int(s)`: `some n` on success, `none` when `int` would raise
`ValueError`.  (ASCII digits and whitespace; an optional single sign.) -/
def pyInt (s : String) : Option Int :=
  match pyStripWs s.data with
  | '+' :: rest => (pyDigitsStart rest).map Int.ofNat
  | '-' :: rest => (pyDigitsStart rest).map (fun n => -(Int.ofNat n))
  | rest => (pyDigitsStart rest).map Int.ofNat

/-- Python `range(a, b)` as a list of integers. -/
def pyRange (a b : Int) : List Int :=
  (List.range (b - a).toNat).map (fun i => a + Int.ofNat i)

/-- Last element of Python `s.split(' ')`, i.e. `s.split(' ')[-1]`
(`split` never returns an empty list, so the default is unreachable). -/
def lastSpaceToken (s : String) : String :=
  ⟨(pySplitChar ' ' s.data).getLastD []⟩

/-- HTTP response: status code and body text. -/
structure HttpResponse where
  status : Nat
  body : String
deriving DecidableEq

/-- Network-level failure of a single request attempt. -/
inductive NetError where
  | connError
  | dnsError
  | timeout
deriving DecidableEq

/-- Outcome of one raw HTTP attempt on the wire. -/
inductive Attempt where
  | resp (r : HttpResponse)
  | netErr (e : NetError)
deriving DecidableEq

/-- Exceptions of the `requests` library: every error its session can
produce is a subclass of `requests.RequestException`. -/
inductive ReqExn where
  | connectionError
  | dnsFailure
  | timeoutErr
  | retryError
  | httpError (status : Nat)
  | invalidSchema
deriving DecidableEq

/-- Python exceptions that occur in the scrapers. -/
inductive PyExn where
  | reqExn (e : ReqExn)
  | attributeError
  | valueError
  | assertionError
deriving DecidableEq

/-- `urllib3.util.retry.Retry` configuration, as constructed in
`BaseScraper.__init__`. -/
structure RetryPolicy where
  total : Nat
  backoffFactor : Nat
  statusForcelist : List Nat
deriving DecidableEq

/-- src/base_scraper.py line 22:
`Retry(total=5, backoff_factor=5, status_forcelist=[500, 502, 503, 504])`. -/
def azRetries : RetryPolicy := ⟨5, 5, [500, 502, 503, 504]⟩

/-- src/python/base_scraper.py line 39:
`Retry(total=5, backoff_factor=5, status_forcelist=[400, 500, 502, 503, 504])`. -/
def pyRetries : RetryPolicy := ⟨5, 5, [400, 500, 502, 503, 504]⟩

/-- The default `requests.HTTPAdapter` performs no retries. -/
def defaultRetry : RetryPolicy := ⟨0, 0, []⟩

/-- `urllib3`'s backoff sleep before the k-th retry (k ≥ 1):
`min(BACKOFF_MAX, backoff_factor * 2 ** (k - 1))` with `BACKOFF_MAX = 120`. -/
def backoffTime (factor k : Nat) : Nat := min 120 (factor * 2 ^ (k - 1))

/-- Would `urllib3.Retry` retry this attempt outcome?  A response is
retried exactly when its status is in `status_forcelist`; connection-level
errors are always candidates for retry (counted against `total`). -/
def attemptRetryable (fl : List Nat) : Attempt → Bool
  | .resp r => fl.contains r.status
  | .netErr _ => true

/-- The `requests` exception surfaced when retries are exhausted on the
given final attempt outcome (`MaxRetryError` wrapped by `requests`). -/
def exhaustErr : Attempt → ReqExn
  | .resp _ => .retryError
  | .netErr .connError => .connectionError
  | .netErr .dnsError => .dnsFailure
  | .netErr .timeout => .timeoutErr

/-- Outcome of an attempt that is not retried: the response is returned,
a network error is raised as a `RequestException`. -/
def settleAttempt : Attempt → Except ReqExn HttpResponse
  | .resp r => .ok r
  | .netErr .connError => .error .connectionError
  | .netErr .dnsError => .error .dnsFailure
  | .netErr .timeout => .error .timeoutErr

/-- The urllib3 retry loop: `att i` is the outcome of the i-th attempt,
`rem` the remaining retry budget.  Returns the number of retries
performed (the index of the last attempt made) and the final outcome. -/
def runRetriesAux (fl : List Nat) (att : Nat → Attempt) :
    Nat → Nat → Nat × Except ReqExn HttpResponse
  | i, 0 =>
    let a := att i
    if attemptRetryable fl a then (i, .error (exhaustErr a)) else (i, settleAttempt a)
  | i, rem + 1 =>
    let a := att i
    if attemptRetryable fl a then runRetriesAux fl att (i + 1) rem
    else (i, settleAttempt a)

/-- Run a request under a retry policy: retries performed and outcome. -/
def runRetries (p : RetryPolicy) (att : Nat → Attempt) :
    Nat × Except ReqExn HttpResponse :=
  runRetriesAux p.statusForcelist att 0 p.total

/-- A `requests.Session`: transport adapters keyed by URL prefix, kept in
longest-prefix-first order as `requests` does. -/
structure Session where
  adapters : List (String × RetryPolicy)

/-- A fresh `requests.Session()` mounts zero-retry default adapters for
the `https://` and `http://` prefixes. -/
def requestsDefaultSession : Session :=
  ⟨[("https://", defaultRetry), ("http://", defaultRetry)]⟩

/-- `session.mount(prefix, HTTPAdapter(max_retries=p))`: replaces the
adapter stored under `prefix` (the orders used here keep the longest
prefix first, as `requests` sorts keys by length descending). -/
def Session.mountAdapter (s : Session) (pre : String) (p : RetryPolicy) : Session :=
  ⟨(pre, p) :: s.adapters.filter (fun a => !(a.1 = pre : Bool))⟩

/-- `session.get_adapter(url)`: the first (longest) mounted prefix that
the URL starts with. -/
def Session.adapterFor (s : Session) (url : String) : Option RetryPolicy :=
  (s.adapters.find? (fun a => listStarts a.1.data url.data)).map (fun a => a.2)

/-- The session built by `BaseScraper.__init__` in src/base_scraper.py
(used by the AZQuotes, Goodreads and FamousQuotes scrapers at top level):
the retry adapter is mounted only for the `https://` prefix. -/
def baseSession : Session :=
  requestsDefaultSession.mountAdapter "https://" azRetries

/-- The session built by src/python/base_scraper.py (used by the
FamousQuotes scraper under src/python): again only `https://` is
remounted. -/
def pySession : Session :=
  requestsDefaultSession.mountAdapter "https://" pyRetries

/-- `session.get(url, timeout=30)`: pick the adapter by URL prefix and run
the retry loop; a URL matching no adapter raises `InvalidSchema` (also a
`RequestException`).  Returns retries performed and the outcome. -/
def sessionFetch (sess : Session) (url : String) (att : Nat → Attempt) :
    Nat × Except ReqExn HttpResponse :=
  match sess.adapterFor url with
  | none => (0, .error .invalidSchema)
  | some p => runRetries p att

/-- The body of `BaseScraper.get_page`'s `try` block: perform the request,
then `raise_for_status` (raises `HTTPError` for status 400–599), then
return the body text.  Every exception it can raise is a
`requests.RequestException`. -/
def getPageTry (sess : Session) (url : String) (att : Nat → Attempt) :
    Except PyExn String :=
  match (sessionFetch sess url att).2 with
  | .error e => .error (.reqExn e)
  | .ok r =>
    if 400 ≤ r.status ∧ r.status < 600 then .error (.reqExn (.httpError r.status))
    else .ok r.body

/-- `BaseScraper.get_page` (both variants): the `try` body with
`except requests.RequestException: return ''`.  Any non-`RequestException`
would propagate, but none is raised. -/
def get_page (sess : Session) (url : String) (att : Nat → Attempt) :
    Except PyExn String :=
  match getPageTry sess url att with
  | .ok s => .ok s
  | .error (.reqExn _) => .ok ""
  | .error e => .error e

/-- A quote record as built by `AzQuoteScraper.scrape_page`. -/
structure AzRecord where
  quote : String
  author : String
  tags : List String
  likes : String
deriving DecidableEq

/-- One `div.wrap-block` element as the AZQuotes extractor observes it:
each field is the text reached by the corresponding `find` chain, `none`
when some `find` on the chain returns `None` (so that `.get_text` or a
further `.find` raises `AttributeError`). -/
structure AzBlock where
  titleText : Option String
  authorText : Option String
  mytags : Option (List String)
  heartText : Option String
deriving DecidableEq

/-- The pager `div.pager` of an AZQuotes listing page: the text of its
first `span`, `none` when the pager has no span. -/
structure AzPager where
  spanText : Option String
deriving DecidableEq

/-- What the AZQuotes scraper observes of one parsed document. -/
structure AzDoc where
  wrapBlocks : List AzBlock
  pager : Option AzPager
deriving DecidableEq

/-- The soup of the empty string: no elements at all. -/
def AzDoc.empty : AzDoc := ⟨[], none⟩

/-- Environment of one AZQuotes run: the network behaviour per URL and
the parse of each body that occurs, with the true `html.parser` fact that
the empty string parses to a soup with no elements. -/
structure AzEnv where
  attempts : String → Nat → Attempt
  docOf : String → AzDoc
  emptyParse : docOf "" = AzDoc.empty

/-- `self.get_page(url)` as called from the AZQuotes scraper. -/
def azGetPage (env : AzEnv) (url : String) : Except PyExn String :=
  get_page baseSession url (env.attempts url)

/-- `AzQuoteScraper.get_quote`: `block.find('a', class_='title').get_text()`. -/
def azGetQuote (b : AzBlock) : Except PyExn String :=
  match b.titleText with
  | none => .error .attributeError
  | some t => .ok t

/-- `AzQuoteScraper.get_author`: text of `div.author`, `'Unknown'` when
the text is empty. -/
def azGetAuthor (b : AzBlock) : Except PyExn String :=
  match b.authorText with
  | none => .error .attributeError
  | some a => .ok (if a = "" then "Unknown" else a)

/-- `AzQuoteScraper.get_tags`: the texts of the anchors of `div.mytags`. -/
def azGetTags (b : AzBlock) : Except PyExn (List String) :=
  match b.mytags with
  | none => .error .attributeError
  | some ts => .ok ts

/-- `AzQuoteScraper.get_likes`: text of the heart anchor inside
`div.share-icons`. -/
def azGetLikes (b : AzBlock) : Except PyExn String :=
  match b.heartText with
  | none => .error .attributeError
  | some t => .ok t

/-- One iteration of the `wrap-block` loop in `AzQuoteScraper.scrape_page`. -/
def azRecordOfBlock (b : AzBlock) : Except PyExn AzRecord := do
  let q ← azGetQuote b
  let a ← azGetAuthor b
  let ts ← azGetTags b
  let l ← azGetLikes b
  return ⟨q, a, ts, l⟩

/-- `AzQuoteScraper.scrape_page` (save=False): fetch, parse, and extract
one record per `div.wrap-block`; the first extraction error propagates. -/
def azScrapePage (env : AzEnv) (url : String) : Except PyExn (List AzRecord) := do
  let page ← azGetPage env url
  let soup := env.docOf page
  soup.wrapBlocks.mapM azRecordOfBlock

/-- `AzQuoteScraper.__find_num_of_pages`: fetch the listing, return 1 when
there is no `div.pager`; otherwise parse the last space-token of the
pager span's text as an int, returning 1 when `int` raises `ValueError`.
A pager without a span raises `AttributeError` (`None.get_text()`). -/
def azFindNumOfPages (env : AzEnv) (url : String) : Except PyExn Int := do
  let page ← azGetPage env url
  match (env.docOf page).pager with
  | none => return 1
  | some pd =>
    match pd.spanText with
    | none => throw .attributeError
    | some txt =>
      match pyInt (lastSpaceToken txt) with
      | some n => return n
      | none => return 1

/-- `AzQuoteScraper.__generate_pages`: clamp `end_page` to the discovered
page count, then emit `url?p=i` for `i` in `range(start_page, end_page+1)`. -/
def azGeneratePages (env : AzEnv) (url : String) (startPage endPage : Int) :
    Except PyExn (List String) := do
  let n ← azFindNumOfPages env url
  let ep := if endPage > n then n else endPage
  return (pyRange startPage (ep + 1)).map (fun i => url ++ "?p=" ++ toString i)

/-- `AzQuoteScraper.scrape_many_pages` (save=False): expand every URL into
its page URLs, run `scrape_page` on each through the worker pool, and
extend the result list with each future's result as it completes; an
exception raised by a worker re-raises at `future.result()` and aborts the
aggregation. -/
def azScrapeManyPages (env : AzEnv) (urls : List String)
    (startPage endPage : Int) : Except PyExn (List AzRecord) := do
  let pagess ← urls.mapM (fun u => azGeneratePages env u startPage endPage)
  let rss ← pagess.flatten.mapM (azScrapePage env)
  return rss.flatten

/-- `AzQuoteScraper.scrape_many_pages` observed a fetch failure on this
page URL: the request raised, or `raise_for_status` would raise (the
session reported a 4xx/5xx response). -/
def azFetchFailed (env : AzEnv) (url : String) : Bool :=
  match (sessionFetch baseSession url (env.attempts url)).2 with
  | .error _ => true
  | .ok r => decide (400 ≤ r.status ∧ r.status < 600)

/-- Number of page work items whose fetch failed in this environment. -/
def azFailedCount (env : AzEnv) (pages : List String) : Nat :=
  pages.countP (fun p => azFetchFailed env p)

/-- A record built by the python FamousQuotesScraper (`likes` is always
`None` there, so it is omitted). -/
structure FqRecord where
  quote : String
  author : String
  tags : String
deriving DecidableEq

/-- The quote table of a FamousQuotes page as its extractor observes it:
the quote div texts, the author divs (each `some name` or `none` when the
div has no anchor, making `find('a').get_text()` raise), and the topic
div's text when present. -/
structure FqTable where
  quoteDivs : List String
  authorAnchors : List (Option String)
  tagDiv : Option String
deriving DecidableEq

/-- What the FamousQuotes scraper observes of one parsed document:
`soup.find('td', style=…, valign='top')`, when present. -/
structure FqDoc where
  table : Option FqTable
deriving DecidableEq

/-- Environment of one FamousQuotes (src/python) run. -/
structure FqEnv where
  attempts : String → Nat → Attempt
  docOf : String → FqDoc
  emptyParse : docOf "" = ⟨none⟩

/-- `self.get_page(url)` as called from the src/python FamousQuotes
scraper (whose base session is the src/python one). -/
def fqGetPage (env : FqEnv) (url : String) : Except PyExn String :=
  get_page pySession url (env.attempts url)

/-- src/python `FamousQuotesScraper.get_quote`: the quote div texts, but
`[""]` when an `AttributeError` occurs (in particular when the table is
`None` and `find_all` is attempted on it). -/
def fqGetQuote (t : Option FqTable) : List String :=
  match t with
  | none => [""]
  | some tb => tb.quoteDivs

/-- src/python `FamousQuotesScraper.get_author`: the author anchor texts,
but `[""]` when an `AttributeError` occurs (table `None`, or some author
div lacking an anchor). -/
def fqGetAuthor (t : Option FqTable) : List String :=
  match t with
  | none => [""]
  | some tb =>
    match tb.authorAnchors.mapM id with
    | some names => names
    | none => [""]

/-- src/python `FamousQuotesScraper.get_tags`: the topic div's text up to
the first occurrence of `' Quote'`; an `AttributeError` while locating the
text yields `""`, but a text without `' Quote'` raises `ValueError`
(`str.index` is outside the `try`). -/
def fqGetTags (t : Option FqTable) : Except PyExn String :=
  match t.bind (fun tb => tb.tagDiv) with
  | none => .ok ""
  | some txt =>
    match strIndexOf txt.data " Quote".data with
    | some i => .ok ⟨txt.data.take i⟩
    | none => .error .valueError

/-- src/python `FamousQuotesScraper.scrape_page` (save=False): fetch,
locate the table, extract quotes/authors/tag, assert equal counts, and
zip the quote and author lists into records. -/
def fqScrapePage (env : FqEnv) (url : String) : Except PyExn (List FqRecord) := do
  let page ← fqGetPage env url
  let doc := env.docOf page
  let t := doc.table
  let quotes := fqGetQuote t
  let authors := fqGetAuthor t
  let tag ← fqGetTags t
  if quotes.length = authors.length then
    return (quotes.zip authors).map (fun qa => ⟨qa.1, qa.2, tag⟩)
  else
    throw .assertionError

/-- src/python `FamousQuotesScraper.scrape_many_pages` (save=False): run
`scrape_page` over every URL through the pool and extend with each
future's result; a worker exception re-raises at `future.result()`. -/
def fqScrapeManyPages (env : FqEnv) (urls : List String) :
    Except PyExn (List FqRecord) := do
  let rss ← urls.mapM (fqScrapePage env)
  return rss.flatten

/-- A record built by `GoodReadsScraper.scrape_page`. -/
structure GrRecord where
  quote : String
  author : String
  tags : List String
  likes : String
deriving DecidableEq

/-- The `div.quoteFooter` of a Goodreads quote block: the texts of all its
anchors, and the text of its `a.smallText` when present. -/
structure GrFooter where
  anchorTexts : List String
  smallText : Option String
deriving DecidableEq

/-- One `div.quote.mediumText` element as the Goodreads extractor
observes it. -/
structure GrBlock where
  quoteText : Option String
  authorOrTitle : Option String
  footer : Option GrFooter
deriving DecidableEq

/-- What the Goodreads scraper observes of one parsed document. -/
structure GrDoc where
  blocks : List GrBlock
deriving DecidableEq

/-- Environment of one Goodreads run. -/
structure GrEnv where
  attempts : String → Nat → Attempt
  docOf : String → GrDoc
  emptyParse : docOf "" = ⟨[]⟩

/-- `GoodReadsScraper.get_quote`: text of `div.quoteText`. -/
def grGetQuote (b : GrBlock) : Except PyExn String :=
  match b.quoteText with
  | none => .error .attributeError
  | some t => .ok t

/-- `GoodReadsScraper.get_author`: text of `span.authorOrTitle`,
`'Unknown'` when empty. -/
def grGetAuthor (b : GrBlock) : Except PyExn String :=
  match b.authorOrTitle with
  | none => .error .attributeError
  | some a => .ok (if a = "" then "Unknown" else a)

/-- `GoodReadsScraper.get_likes`: first space-token of the text of the
footer's `a.smallText` (`likes.split(' ')[0]`). -/
def grGetLikes (b : GrBlock) : Except PyExn String :=
  match b.footer with
  | none => .error .attributeError
  | some f =>
    match f.smallText with
    | none => .error .attributeError
    | some t => .ok ⟨(pySplitChar ' ' t.data).headD []⟩

/-- `GoodReadsScraper.get_tags`: all anchor texts of the footer except the
last (`tags[:-1]`). -/
def grGetTags (b : GrBlock) : Except PyExn (List String) :=
  match b.footer with
  | none => .error .attributeError
  | some f => .ok f.anchorTexts.dropLast

/-- One iteration of the block loop in `GoodReadsScraper.scrape_page`. -/
def grRecordOfBlock (b : GrBlock) : Except PyExn GrRecord := do
  let q ← grGetQuote b
  let a ← grGetAuthor b
  let ts ← grGetTags b
  let l ← grGetLikes b
  return ⟨q, a, ts, l⟩

/-- `GoodReadsScraper.scrape_page` (save=False). -/
def grScrapePage (env : GrEnv) (url : String) : Except PyExn (List GrRecord) := do
  let page ← get_page baseSession url (env.attempts url)
  let soup := env.docOf page
  soup.blocks.mapM grRecordOfBlock

/-- `GoodReadsScraper.__generate_pages`: emits `url?page=i` for `i` in
`range(start_page, end_page+1)` — it performs no page-count discovery and
no clamping of `end_page`. -/
def grGeneratePages (url : String) (startPage endPage : Int) : List String :=
  (pyRange startPage (endPage + 1)).map (fun i => url ++ "?page=" ++ toString i)

/-- `GoodReadsScraper.scrape_many_pages` (save=False). -/
def grScrapeManyPages (env : GrEnv) (urls : List String)
    (startPage endPage : Int) : Except PyExn (List GrRecord) := do
  let pages := urls.flatMap (fun u => grGeneratePages u startPage endPage)
  let rss ← pages.mapM (grScrapePage env)
  return rss.flatten

/-- Effect of `BaseScraper._save`: which serializer runs on which
filename, or the `NotImplementedError` raise. -/
inductive SaveAction where
  | writeJson (fname : Chars)
  | writePickle (fname : Chars)
  | raiseNotImplemented
deriving DecidableEq

/-- The timestamped filename built by `BaseScraper._save`:
split on `'.'`, rejoin all but the last part as the stem, and rebuild as
`stem_now.ext` with `now` the formatted timestamp (a parameter here, as
`datetime.now()` is an outside input). -/
def saveFilename (filename now : Chars) : Chars :=
  let parts := pySplitChar '.' filename
  pyJoinChar '.' parts.dropLast ++ '_' :: (now ++ '.' :: parts.getLastD [])

/-- `BaseScraper._save` (both variants dispatch identically): serializer
choice by the substring tests `'json' in filename` and `'pkl' in filename`
on the full timestamped filename, else `raise NotImplementedError`. -/
def saveAction (filename now : Chars) : SaveAction :=
  let fn := saveFilename filename now
  if listHasSub "json".data fn then .writeJson fn
  else if listHasSub "pkl".data fn then .writePickle fn
  else .raiseNotImplemented

/-- State of the `ThreadPoolExecutor` during one `scrape_many_pages` run:
how many submitted work items are waiting, executing, and finished. -/
structure PoolState where
  pending : Nat
  running : Nat
  completed : Nat
deriving DecidableEq

/-- `ThreadPoolExecutor(max_workers=10)` in all three `scrape_many_pages`
implementations (src/az_quote_scrapper.py line 260,
src/goodreads_scraper.py line 114,
src/python/famous_quotes_scraper.py line 189). -/
def poolMaxWorkers : Nat := 10

/-- Transitions of a bounded worker pool of width `k`: a pending item may
start only while fewer than `k` items are running (a fetch is in flight
exactly while its work item runs), and a running item may finish. -/
inductive PoolStep (k : Nat) : PoolState → PoolState → Prop where
  | start (p r c : Nat) : r < k → PoolStep k ⟨p + 1, r, c⟩ ⟨p, r + 1, c⟩
  | finish (p r c : Nat) : PoolStep k ⟨p, r + 1, c⟩ ⟨p, r, c + 1⟩

/-- Reflexive-transitive closure of pool transitions. -/
inductive PoolReachable (k : Nat) : PoolState → PoolState → Prop where
  | refl (s : PoolState) : PoolReachable k s s
  | step (s t u : PoolState) :
      PoolReachable k s t → PoolStep k t u → PoolReachable k s u

/-- Pool state right after `scrape_many_pages` has submitted its `n` work
items: all pending, none started. -/
def harvestInit (n : Nat) : PoolState := ⟨n, 0, 0⟩

/-- Network that fails every attempt with a connection error. -/
def attAllNetErr : String → Nat → Attempt := fun _ _ => .netErr .connError

/-- Network that answers every attempt with an empty 200 page. -/
def attAllOkEmpty : String → Nat → Attempt := fun _ _ => .resp ⟨200, ""⟩

/-- AZQuotes environment in which every request fails on the wire. -/
def azEnvFail : AzEnv := ⟨attAllNetErr, fun _ => AzDoc.empty, rfl⟩

/-- AZQuotes environment in which every request yields an empty page. -/
def azEnvOk : AzEnv := ⟨attAllOkEmpty, fun _ => AzDoc.empty, rfl⟩

/-- A well-formed AZQuotes quote block. -/
def azGoodBlock : AzBlock := ⟨some "q1", some "Auth", some ["love"], some "5"⟩

/-- The record extracted from `azGoodBlock`. -/
def azGoodRecord : AzRecord := ⟨"q1", "Auth", ["love"], "5"⟩

/-- A malformed AZQuotes quote block: the `div.wrap-block` is matched but
none of the inner elements are present, so every accessor raises. -/
def azBadBlock : AzBlock := ⟨none, none, none, none⟩

/-- AZQuotes environment with two single-page listings: page `a?p=1`
parses into one well-formed block, page `b?p=1` into one malformed one. -/
def azEnvMixed : AzEnv :=
  ⟨fun url _ =>
      if url = "https://a?p=1" then .resp ⟨200, "GOOD"⟩
      else if url = "https://b?p=1" then .resp ⟨200, "BAD"⟩
      else .resp ⟨200, ""⟩,
   fun s =>
      if s = "GOOD" then ⟨[azGoodBlock], none⟩
      else if s = "BAD" then ⟨[azBadBlock], none⟩
      else AzDoc.empty,
   rfl⟩

/-- AZQuotes environment with two single-page listings: page `g?p=1` is
well-formed, the fetch of page `b?p=1` fails on the wire. -/
def azEnvIso : AzEnv :=
  ⟨fun url _ =>
      if url = "https://g?p=1" then .resp ⟨200, "GOOD"⟩
      else if url = "https://b?p=1" then .netErr .connError
      else .resp ⟨200, ""⟩,
   fun s => if s = "GOOD" then ⟨[azGoodBlock], none⟩ else AzDoc.empty,
   rfl⟩

/-- AZQuotes environment whose every page carries a pager declaring three
pages (`span` text `"1 2 3"`). -/
def azEnvPager : AzEnv :=
  ⟨fun _ _ => .resp ⟨200, "L"⟩,
   fun s => if s = "L" then ⟨[], some ⟨some "1 2 3"⟩⟩ else AzDoc.empty,
   rfl⟩

/-- AZQuotes environment for the end-to-end scenario: one listing whose
pager declares 3 pages and whose every content page yields two records. -/
def azEnvThree : AzEnv :=
  ⟨fun url _ =>
      if url = "https://t" then .resp ⟨200, "L3"⟩
      else .resp ⟨200, "P2"⟩,
   fun s =>
      if s = "L3" then ⟨[], some ⟨some "Next 1 2 3"⟩⟩
      else if s = "P2" then ⟨[azGoodBlock, azGoodBlock], none⟩
      else AzDoc.empty,
   rfl⟩

/-- FamousQuotes environment in which every request fails on the wire. -/
def fqEnvFail : FqEnv := ⟨attAllNetErr, fun _ => ⟨none⟩, rfl⟩

/-- The number of retries the urllib3 loop performs is bounded by the
remaining budget. -/
theorem runRetriesAux_fst_le (fl : List Nat) (att : Nat → Attempt) :
    ∀ rem i, (runRetriesAux fl att i rem).1 ≤ i + rem := by
  intro rem
  induction rem with
  | zero =>
    intro i
    simp only [runRetriesAux]
    split <;> simp
  | succ r ih =>
    intro i
    simp only [runRetriesAux]
    split
    · exact le_trans (ih (i + 1)) (by omega)
    · simp

/-- When the first attempt is not retryable, the urllib3 loop stops at
it: no retry is performed. -/
theorem runRetriesAux_first_ok (fl : List Nat) (att : Nat → Attempt)
    (i rem : Nat) (h : attemptRetryable fl (att i) = false) :
    (runRetriesAux fl att i rem).1 = i := by
  cases rem <;> simp [runRetriesAux, h]

/-- The `https://` adapter prefix does not match an `http://` URL. -/
theorem https_not_starts_http (r : String) :
    listStarts "https://".data (("http://" ++ r).data) = false := by
  simp [String.data_append, listStarts]

/-- The `http://` adapter prefix matches every `http://` URL. -/
theorem http_starts_http (r : String) :
    listStarts "http://".data (("http://" ++ r).data) = true := by
  simp [String.data_append, listStarts]

/-- C5 counterexample: the claim says the fetcher retries only on a status
in {500, 502, 503, 504}, but the src/python fetcher's session retries a
400 response — five times, the full budget — although 400 is not in that
set. -/
theorem c5_counterexample :
    (sessionFetch pySession "https://x" (fun _ => .resp ⟨400, ""⟩)).1 = 5 ∧
    ([500, 502, 503, 504].contains 400) = false := by
  exact ⟨rfl, by decide⟩

/-- C5 (amended): the src/base_scraper.py fetcher retries exactly on
statuses in its forcelist [500, 502, 503, 504] and the src/python fetcher
on [400, 500, 502, 503, 504]; a first response outside the respective
forcelist causes zero retries; retries never exceed the budget of 5; the
backoff delays of the first five retries strictly increase; and four
consecutive 503 responses followed by a 200 cause exactly 4 retries. -/
theorem c5_amended :
    (∀ (att : Nat → Attempt) (r : HttpResponse), att 0 = .resp r →
      azRetries.statusForcelist.contains r.status = false →
      (runRetries azRetries att).1 = 0) ∧
    (∀ (att : Nat → Attempt) (r : HttpResponse), att 0 = .resp r →
      pyRetries.statusForcelist.contains r.status = false →
      (runRetries pyRetries att).1 = 0) ∧
    (∀ att : Nat → Attempt, (runRetries azRetries att).1 ≤ azRetries.total ∧
      (runRetries pyRetries att).1 ≤ pyRetries.total) ∧
    (∀ j k : Nat, 1 ≤ j → j < k → k ≤ 5 →
      backoffTime azRetries.backoffFactor j < backoffTime azRetries.backoffFactor k) ∧
    azRetries.statusForcelist = [500, 502, 503, 504] ∧
    pyRetries.statusForcelist = [400, 500, 502, 503, 504] ∧
    (runRetries azRetries
      (fun i => if i < 4 then .resp ⟨503, ""⟩ else .resp ⟨200, "ok"⟩)).1 = 4 := by
  refine ⟨?_, ?_, ?_, ?_, rfl, rfl, rfl⟩
  · intro att r h0 hc
    refine runRetriesAux_first_ok _ att 0 _ ?_
    simp only [h0, attemptRetryable]
    exact hc
  · intro att r h0 hc
    refine runRetriesAux_first_ok _ att 0 _ ?_
    simp only [h0, attemptRetryable]
    exact hc
  · intro att
    exact ⟨runRetriesAux_fst_le _ att _ 0, runRetriesAux_fst_le _ att _ 0⟩
  · intro j k h1 h2 h3
    interval_cases k <;> interval_cases j <;> decide

/-- C5 witness: a 404 first response causes zero retries under either
fetcher's policy. -/
theorem c5_witness :
    (runRetries azRetries (fun _ => .resp ⟨404, ""⟩)).1 = 0 ∧
    (runRetries pyRetries (fun _ => .resp ⟨404, ""⟩)).1 = 0 :=
  ⟨c5_amended.1 _ ⟨404, ""⟩ rfl (by decide),
   c5_amended.2.1 _ ⟨404, ""⟩ rfl (by decide)⟩

/-- C6: `BaseScraper.get_page` never lets an exception escape: for every
session configuration, URL and network behaviour it returns a string
(the body on success, the empty string on any request failure). -/
theorem get_page_never_raises (sess : Session) (url : String)
    (att : Nat → Attempt) : ∃ s, get_page sess url att = .ok s := by
  unfold get_page getPageTry
  cases h : (sessionFetch sess url att).2 with
  | error e => exact ⟨"", by simp⟩
  | ok r =>
    by_cases hr : 400 ≤ r.status ∧ r.status < 600
    · exact ⟨"", by simp [hr]⟩
    · exact ⟨r.body, by simp [hr]⟩

/-- C9: both scraper sessions mount their retry adapter only for
`https://`, so a URL with the `http://` scheme (as the FamousQuotes
scraper uses) is served by the default zero-retry adapter: no retries are
ever performed for it, and a retryable status such as 503 fails
immediately (`raise_for_status` → caught → empty page). -/
theorem http_scheme_no_retries (rest : String) (att : Nat → Attempt)
    (b : String) :
    (sessionFetch baseSession ("http://" ++ rest) att).1 = 0 ∧
    (sessionFetch pySession ("http://" ++ rest) att).1 = 0 ∧
    (att 0 = .resp ⟨503, b⟩ →
      get_page pySession ("http://" ++ rest) att = .ok "" ∧
      get_page baseSession ("http://" ++ rest) att = .ok "") := by
  have hadapt1 : baseSession.adapterFor ("http://" ++ rest) = some defaultRetry := by
    simp [baseSession, Session.adapterFor, Session.mountAdapter,
      requestsDefaultSession, List.find?, String.data_append, listStarts]
  have hadapt2 : pySession.adapterFor ("http://" ++ rest) = some defaultRetry := by
    simp [pySession, Session.adapterFor, Session.mountAdapter,
      requestsDefaultSession, List.find?, String.data_append, listStarts]
  have hz1 : (sessionFetch baseSession ("http://" ++ rest) att).1 = 0 := by
    simp only [sessionFetch, hadapt1, runRetries, defaultRetry, runRetriesAux]
    split <;> rfl
  have hz2 : (sessionFetch pySession ("http://" ++ rest) att).1 = 0 := by
    simp only [sessionFetch, hadapt2, runRetries, defaultRetry, runRetriesAux]
    split <;> rfl
  refine ⟨hz1, hz2, fun h0 => ?_⟩
  constructor
  · simp [get_page, getPageTry, sessionFetch, hadapt2, runRetries, defaultRetry,
      runRetriesAux, h0, attemptRetryable, settleAttempt]
  · simp [get_page, getPageTry, sessionFetch, hadapt1, runRetries, defaultRetry,
      runRetriesAux, h0, attemptRetryable, settleAttempt]

/-- C9 witness: a constant-503 network on an `http://` URL gives an
immediate empty-page failure with zero retries under both sessions. -/
theorem http_scheme_no_retries_witness :
    (sessionFetch pySession ("http://" ++ "www.famousquotesandauthors.com")
      (fun _ => .resp ⟨503, "busy"⟩)).1 = 0 ∧
    get_page pySession ("http://" ++ "www.famousquotesandauthors.com")
      (fun _ => .resp ⟨503, "busy"⟩) = .ok "" :=
  ⟨(http_scheme_no_retries "www.famousquotesandauthors.com"
      (fun _ => .resp ⟨503, "busy"⟩) "busy").2.1,
   ((http_scheme_no_retries "www.famousquotesandauthors.com"
      (fun _ => .resp ⟨503, "busy"⟩) "busy").2.2 rfl).1⟩

/-- C10: in every pool state reachable from a freshly submitted harvest
of `n` work items, at most `poolMaxWorkers` (= 10, the `max_workers`
passed by every `scrape_many_pages`) work items — hence fetches — are
running simultaneously. -/
theorem pool_concurrency_bounded (n : Nat) (s : PoolState)
    (h : PoolReachable poolMaxWorkers (harvestInit n) s) :
    s.running ≤ poolMaxWorkers := by
  induction h with
  | refl => simp [harvestInit]
  | step t u hr hstep ih =>
    cases hstep with
    | start p r c hlt => exact hlt
    | finish p r c => simp at ih ⊢; omega

/-- C10 witness: after submitting 25 items and starting one of them, the
reachable state has 1 ≤ 10 running fetches. -/
theorem pool_concurrency_bounded_witness :
    (⟨24, 1, 0⟩ : PoolState).running ≤ poolMaxWorkers :=
  pool_concurrency_bounded 25 ⟨24, 1, 0⟩
    (PoolReachable.step _ _ _ (PoolReachable.refl _)
      (PoolStep.start 24 0 0 (by decide)))

/-- Bind on a successful `Except` computation reduces to the
continuation. -/
theorem exceptBindOk {ε α β : Type} (a : α) (f : α → Except ε β) :
    (Except.ok a : Except ε α) >>= f = f a := rfl

/-- Bind on a failed `Except` computation propagates the error. -/
theorem exceptBindError {ε α β : Type} (e : ε) (f : α → Except ε β) :
    (Except.error e : Except ε α) >>= f = Except.error e := rfl

/-- `pure` in the `Except` monad is `Except.ok`. -/
theorem exceptPure {ε α : Type} (a : α) :
    (pure a : Except ε α) = Except.ok a := rfl

/-- Length of a Python range. -/
theorem pyRange_length (a b : Int) : (pyRange a b).length = (b - a).toNat := by
  unfold pyRange
  rw [List.length_map, List.length_range]

/-- A page whose fetch produced the empty string (in particular, every
failed fetch) yields zero records from `AzQuoteScraper.scrape_page`:
the empty soup has no `div.wrap-block`. -/
theorem azScrapePage_empty (env : AzEnv) (p : String)
    (h : azGetPage env p = Except.ok "") :
    azScrapePage env p = Except.ok [] := by
  unfold azScrapePage
  rw [h, exceptBindOk]
  rw [env.emptyParse]
  rfl

/-- When page generation and every page's extraction succeed,
`AzQuoteScraper.scrape_many_pages` returns exactly the concatenation of
the per-page record lists. -/
theorem az_harvest_ok (env : AzEnv) (urls : List String) (sp ep : Int)
    (pagess : List (List String)) (rss : List (List AzRecord))
    (h1 : urls.mapM (fun u => azGeneratePages env u sp ep) = Except.ok pagess)
    (h2 : pagess.flatten.mapM (azScrapePage env) = Except.ok rss) :
    azScrapeManyPages env urls sp ep = Except.ok rss.flatten := by
  unfold azScrapeManyPages
  rw [h1, exceptBindOk, h2, exceptBindOk, exceptPure]

/-- C1 counterexample: with two single-page listings where the first page
extracts one record and the second raises `AttributeError` in the
extractor, `scrape_many_pages` does not return the non-failing item's
record — the exception re-raised at `future.result()` aborts the whole
harvest, although the first page alone yields a record. -/
theorem c1_counterexample :
    azScrapeManyPages azEnvMixed ["https://a", "https://b"] 1 1 =
      Except.error PyExn.attributeError ∧
    azScrapePage azEnvMixed "https://a?p=1" = Except.ok [azGoodRecord] :=
  ⟨rfl, rfl⟩

/-- C1 (amended): a work item whose FETCH fails is isolated — `get_page`
converts the failure to an empty body, the item contributes zero records,
and the other items' records are returned intact; only an exception in the
page-extractor step aborts the harvest (see the counterexample). -/
theorem c1_amended (env : AzEnv) (g b : String) (sp ep : Int)
    (pg pb : String) (rs : List AzRecord)
    (h1 : azGeneratePages env g sp ep = Except.ok [pg])
    (h2 : azGeneratePages env b sp ep = Except.ok [pb])
    (h3 : azScrapePage env pg = Except.ok rs)
    (h4 : azGetPage env pb = Except.ok "") :
    azScrapeManyPages env [g, b] sp ep = Except.ok rs := by
  have hpb : azScrapePage env pb = Except.ok [] := azScrapePage_empty env pb h4
  have hm1 : [g, b].mapM (fun u => azGeneratePages env u sp ep) =
      Except.ok [[pg], [pb]] := by
    rw [List.mapM_cons, h1, exceptBindOk, List.mapM_cons, h2, exceptBindOk,
      List.mapM_nil]
    rfl
  have hm2 : ([[pg], [pb]] : List (List String)).flatten.mapM (azScrapePage env) =
      Except.ok [rs, []] := by
    show [pg, pb].mapM (azScrapePage env) = Except.ok [rs, []]
    rw [List.mapM_cons, h3, exceptBindOk, List.mapM_cons, hpb, exceptBindOk,
      List.mapM_nil]
    rfl
  have := az_harvest_ok env [g, b] sp ep [[pg], [pb]] [rs, []] hm1 hm2
  simpa using this

/-- C1 witness: one good listing and one whose page fetch fails on the
wire — the harvest returns exactly the good listing's record. -/
theorem c1_witness :
    azScrapeManyPages azEnvIso ["https://g", "https://b"] 1 1 =
      Except.ok [azGoodRecord] :=
  c1_amended azEnvIso "https://g" "https://b" 1 1 "https://g?p=1"
    "https://b?p=1" [azGoodRecord] rfl rfl rfl rfl

/-- C2 counterexample: in the src/python FamousQuotes harvest, a work item
whose fetch fails contributes exactly ONE placeholder record (empty quote,
author and tags) rather than zero: `get_quote`/`get_author` catch the
`AttributeError` on the missing table and return `[""]`. -/
theorem c2_counterexample :
    fqScrapeManyPages fqEnvFail ["http://u"] = Except.ok [⟨"", "", ""⟩] ∧
    (sessionFetch pySession "http://u" (fqEnvFail.attempts "http://u")).2 =
      Except.error ReqExn.connectionError :=
  ⟨rfl, rfl⟩

/-- C2 (amended): for the AZQuotes harvest the claim holds — when
`scrape_many_pages` returns, its record count is the sum of the per-page
extraction yields, and a page fetched as the empty string (every failed
fetch) contributes zero records; the src/python FamousQuotes harvest
instead yields exactly one empty placeholder record per failed page. -/
theorem c2_amended :
    (∀ (env : AzEnv) (urls : List String) (sp ep : Int)
        (pagess : List (List String)) (rss : List (List AzRecord)),
      urls.mapM (fun u => azGeneratePages env u sp ep) = Except.ok pagess →
      pagess.flatten.mapM (azScrapePage env) = Except.ok rss →
      azScrapeManyPages env urls sp ep = Except.ok rss.flatten ∧
        rss.flatten.length = (rss.map List.length).sum) ∧
    (∀ (env : AzEnv) (p : String), azGetPage env p = Except.ok "" →
      azScrapePage env p = Except.ok []) ∧
    (∀ (env : FqEnv) (url : String), fqGetPage env url = Except.ok "" →
      fqScrapePage env url = Except.ok [⟨"", "", ""⟩]) := by
  refine ⟨?_, ?_, ?_⟩
  · intro env urls sp ep pagess rss h1 h2
    exact ⟨az_harvest_ok env urls sp ep pagess rss h1 h2, by simp⟩
  · intro env p h
    exact azScrapePage_empty env p h
  · intro env url h
    unfold fqScrapePage
    rw [h, exceptBindOk]
    rw [env.emptyParse]
    rfl

/-- C2 witness: the end-to-end scenario — one listing with a discovered
count of 3 whose every page yields 2 records gives a harvest of exactly
6 records, the sum over the three pages. -/
theorem c2_witness :
    azScrapeManyPages azEnvThree ["https://t"] 1 100 =
      Except.ok [azGoodRecord, azGoodRecord, azGoodRecord, azGoodRecord,
        azGoodRecord, azGoodRecord] ∧
    ([[azGoodRecord, azGoodRecord], [azGoodRecord, azGoodRecord],
      [azGoodRecord, azGoodRecord]] : List (List AzRecord)).flatten.length =
      ([[azGoodRecord, azGoodRecord], [azGoodRecord, azGoodRecord],
        [azGoodRecord, azGoodRecord]].map List.length).sum :=
  ⟨(c2_amended.1 azEnvThree ["https://t"] 1 100
      [["https://t?p=1", "https://t?p=2", "https://t?p=3"]]
      [[azGoodRecord, azGoodRecord], [azGoodRecord, azGoodRecord],
        [azGoodRecord, azGoodRecord]] rfl rfl).1,
   (c2_amended.1 azEnvThree ["https://t"] 1 100
      [["https://t?p=1", "https://t?p=2", "https://t?p=3"]]
      [[azGoodRecord, azGoodRecord], [azGoodRecord, azGoodRecord],
        [azGoodRecord, azGoodRecord]] rfl rfl).2⟩

/-- C3 counterexample: the Goodreads page generator used by its
`scrape_many_pages` performs no page-count discovery and no clamping:
requesting pages 1–100 always yields 100 work items, even for a listing
with only 3 pages. -/
theorem c3_counterexample :
    (grGeneratePages "https://g" 1 100).length = 100 := by
  rfl

/-- C3 (amended): the AZQuotes generator does clamp — given a discovered
page count `n`, requesting `[sp, ep]` yields `(min ep n + 1 - sp)` work
items (so 1–100 on a 3-page listing gives exactly 3); the Goodreads
generator does not clamp (see the counterexample). -/
theorem c3_amended (env : AzEnv) (url : String) (sp ep n : Int)
    (h : azFindNumOfPages env url = Except.ok n) :
    ∃ l, azGeneratePages env url sp ep = Except.ok l ∧
      l.length = (min ep n + 1 - sp).toNat := by
  have hmin : (if ep > n then n else ep) = min ep n := by
    split <;> omega
  refine ⟨(pyRange sp (min ep n + 1)).map (fun i => url ++ "?p=" ++ toString i),
    ?_, ?_⟩
  · unfold azGeneratePages
    rw [h, exceptBindOk, hmin]
    rfl
  · rw [List.length_map, pyRange_length]

/-- C3 witness: a listing whose pager declares 3 pages, asked for pages
1–100, expands to exactly 3 work items. -/
theorem c3_witness :
    azFindNumOfPages azEnvPager "https://u" = Except.ok 3 ∧
    ∃ l, azGeneratePages azEnvPager "https://u" 1 100 = Except.ok l ∧
      l.length = 3 := by
  refine ⟨rfl, ?_⟩
  have h := c3_amended azEnvPager "https://u" 1 100 3 rfl
  simpa using h

/-- C4: `AzQuoteScraper.__find_num_of_pages` returns 1 — with no raised
exception — whenever the fetched page is empty (every failed fetch), or
the document has no `div.pager`, or the pager span's text does not parse
as an integer. -/
theorem c4_fail_open (env : AzEnv) (url : String) (page : String)
    (hp : azGetPage env url = Except.ok page)
    (h : page = "" ∨ (env.docOf page).pager = none ∨
      ∃ pd txt, (env.docOf page).pager = some pd ∧ pd.spanText = some txt ∧
        pyInt (lastSpaceToken txt) = none) :
    azFindNumOfPages env url = Except.ok 1 := by
  unfold azFindNumOfPages
  rw [hp, exceptBindOk]
  rcases h with rfl | h | ⟨pd, txt, h1, h2, h3⟩
  · rw [env.emptyParse]
    rfl
  · rw [h]
    rfl
  · rw [h1]
    simp [h2, h3]
    rfl

/-- C4 witness: an environment where every request fails on the wire —
the fetch degrades to the empty page and the discoverer returns 1. -/
theorem c4_witness :
    azGetPage azEnvFail "https://u" = Except.ok "" ∧
    azFindNumOfPages azEnvFail "https://u" = Except.ok 1 :=
  ⟨rfl, c4_fail_open azEnvFail "https://u" "" rfl (Or.inl rfl)⟩

/-- C7 counterexample: `scrape_many_pages` returns no failure manifest —
a run whose only page fetch fails and a run whose only page succeeds with
no quotes return the IDENTICAL value, although their failed-work-item
counts are 1 and 0: no count of failures or reasons can be part of the
result. -/
theorem c7_counterexample :
    azScrapeManyPages azEnvFail ["https://u"] 1 1 =
      azScrapeManyPages azEnvOk ["https://u"] 1 1 ∧
    azFailedCount azEnvFail ["https://u?p=1"] = 1 ∧
    azFailedCount azEnvOk ["https://u?p=1"] = 0 :=
  ⟨rfl, rfl, rfl⟩

/-- C7 (amended): a harvest invocation, when page generation and every
page's extraction succeed, completes and returns exactly the flat list of
gathered records — nothing else: fetch failures are only logged, leaving
no manifest in the returned value, and an extraction exception makes the
invocation raise instead of returning. -/
theorem c7_amended (env : AzEnv) (urls : List String) (sp ep : Int)
    (pagess : List (List String)) (rss : List (List AzRecord))
    (h1 : urls.mapM (fun u => azGeneratePages env u sp ep) = Except.ok pagess)
    (h2 : pagess.flatten.mapM (azScrapePage env) = Except.ok rss) :
    azScrapeManyPages env urls sp ep = Except.ok rss.flatten :=
  az_harvest_ok env urls sp ep pagess rss h1 h2

/-- C7 witness: the all-empty-pages harvest completes with the empty
record list. -/
theorem c7_witness :
    azScrapeManyPages azEnvOk ["https://u"] 1 1 =
      Except.ok ([[]] : List (List AzRecord)).flatten :=
  c7_amended azEnvOk ["https://u"] 1 1 [["https://u?p=1"]] [[]] rfl rfl

/-- Python `split` never returns an empty list of parts. -/
theorem pySplitChar_ne_nil (sep : Char) (l : Chars) :
    pySplitChar sep l ≠ [] := by
  cases l with
  | nil => simp [pySplitChar]
  | cons c cs =>
    simp only [pySplitChar]
    split
    · simp
    · split <;> simp

/-- Splitting a list that does not contain the separator yields the list
itself as the only part. -/
theorem pySplitChar_not_mem (sep : Char) (l : Chars) (h : sep ∉ l) :
    pySplitChar sep l = [l] := by
  induction l with
  | nil => rfl
  | cons c cs ih =>
    have hc : ¬ c = sep := fun he => h (he ▸ List.mem_cons_self c cs)
    have hcs : sep ∉ cs := fun hm => h (List.mem_cons_of_mem c hm)
    simp [pySplitChar, hc, ih hcs]

/-- Splitting `s ++ sep :: e` with `sep` absent from `e` appends `e` as a
final part to the parts of `s`. -/
theorem pySplitChar_append (sep : Char) (s e : Chars) (h : sep ∉ e) :
    pySplitChar sep (s ++ sep :: e) = pySplitChar sep s ++ [e] := by
  induction s with
  | nil => simp [pySplitChar, pySplitChar_not_mem sep e h]
  | cons c s' ih =>
    by_cases hc : c = sep
    · subst hc
      simp [pySplitChar, ih]
    · rcases hps : pySplitChar sep s' with _ | ⟨p, ps⟩
      · exact absurd hps (pySplitChar_ne_nil sep s')
      · rw [hps] at ih
        simp [pySplitChar, hc, ih, hps]

/-- Joining a cons-headed first part commutes with the head character. -/
theorem pyJoinChar_cons_cons (sep c : Char) (p : Chars) (ps : List Chars) :
    pyJoinChar sep ((c :: p) :: ps) = c :: pyJoinChar sep (p :: ps) := by
  cases ps <;> simp [pyJoinChar]

/-- Joining with an empty first part prepends the separator. -/
theorem pyJoinChar_nil_cons (sep : Char) (p : Chars) (ps : List Chars) :
    pyJoinChar sep ([] :: p :: ps) = sep :: pyJoinChar sep (p :: ps) := rfl

/-- `sep.join(s.split(sep))` is the identity, as in Python. -/
theorem pyJoinChar_pySplitChar (sep : Char) (l : Chars) :
    pyJoinChar sep (pySplitChar sep l) = l := by
  induction l with
  | nil => rfl
  | cons c cs ih =>
    rcases hps : pySplitChar sep cs with _ | ⟨p, ps⟩
    · exact absurd hps (pySplitChar_ne_nil sep cs)
    · rw [hps] at ih
      by_cases hc : c = sep
      · subst hc
        simp [pySplitChar, hps, pyJoinChar_nil_cons, ih]
      · simp [pySplitChar, hc, hps, pyJoinChar_cons_cons, ih]

/-- `_save` inserts the timestamp between the stem and the extension:
for any filename `stem.ext` with a dot-free extension, the written file is
`stem_now.ext` (the stem itself may contain further dots). -/
theorem saveFilename_eq (s e now : Chars) (h : '.' ∉ e) :
    saveFilename (s ++ '.' :: e) now = s ++ '_' :: (now ++ '.' :: e) := by
  unfold saveFilename
  rw [pySplitChar_append '.' s e h]
  simp [pyJoinChar_pySplitChar]

/-- C8 counterexample: `_save` dispatches on the substring test
`'json' in filename` over the whole timestamped filename, not on the
extension — the filename `json_data.txt`, whose extension `txt` is
neither JSON nor pickle, is serialized as JSON instead of raising the
configuration error the claim requires. -/
theorem c8_counterexample :
    saveAction "json_data.txt".data "0314".data =
      SaveAction.writeJson "json_data_0314.txt".data ∧
    (pySplitChar '.' "json_data.txt".data).getLastD [] = "txt".data :=
  ⟨rfl, rfl⟩

/-- C8 (amended): `_save` appends the timestamp to the stem, before the
extension; but the serializer is chosen by the substring tests
`'json' in filename` / `'pkl' in filename` on the whole timestamped
filename, and `NotImplementedError` is raised exactly when neither
substring occurs — not whenever the extension is neither JSON nor
pickle. -/
theorem c8_amended (s e now : Chars) (h : '.' ∉ e) :
    saveFilename (s ++ '.' :: e) now = s ++ '_' :: (now ++ '.' :: e) ∧
    (listHasSub "json".data (saveFilename (s ++ '.' :: e) now) = false →
      listHasSub "pkl".data (saveFilename (s ++ '.' :: e) now) = false →
      saveAction (s ++ '.' :: e) now = SaveAction.raiseNotImplemented) ∧
    (listHasSub "json".data (saveFilename (s ++ '.' :: e) now) = true →
      saveAction (s ++ '.' :: e) now =
        SaveAction.writeJson (saveFilename (s ++ '.' :: e) now)) := by
  refine ⟨saveFilename_eq s e now h, ?_, ?_⟩
  · intro hj hp
    simp [saveAction, hj, hp]
  · intro hj
    simp [saveAction, hj]

/-- C8 witness: `quotes.csv` contains neither `json` nor `pkl`, so saving
to it raises the configuration error. -/
theorem c8_witness :
    saveAction ("quotes".data ++ '.' :: "csv".data) "0314".data =
      SaveAction.raiseNotImplemented :=
  (c8_amended "quotes".data "csv".data "0314".data (by decide)).2.1
    (by decide) (by decide)
